import Mathlib

/-!
Shallow embedding of `src/model/pgn/layers.py`: the pointer-generator
network layers (Encoder, Decoder, Attention, Pointer).  Tensors are
modelled over the reals; a batch of vectors of feature dimension `d` is a
function `Fin b → Fin d → ℝ`, a batch of length-`n` sequences of such
vectors is `Fin b → Fin n → Fin d → ℝ`.  Keras `Dense` layers are kernel
plus bias.  Python code that can raise is `Except String`-valued.

Dimension conventions: TensorFlow broadcasting in the source forces the
encoder-output feature dimension, the decoder-hidden dimension and the
attention `units` count to coincide for the dot-product, general and
cosine-similarity score types, so the embedding uses one feature
dimension `d` throughout (the `units` configuration number is still
stored, as the source stores `self.units`).
-/

namespace PGN

/-- Python `str.lower`, as used by the `rnn_type` / `score_type` dispatch
in the source (`self.rnn_type.lower()`, `self.score_type.lower()`). -/
def lowerStr (s : String) : String := ⟨s.data.map Char.toLower⟩

/-- Parameters of a Keras `Dense` layer from input dimension `m` to output
dimension `k`: a kernel matrix and a bias vector. -/
structure Dense (m k : ℕ) where
  kernel : Fin m → Fin k → ℝ
  bias : Fin k → ℝ

/-- Applying a `Dense` layer to a vector: `y o = (Σ i, x i * K i o) + b o`. -/
noncomputable def Dense.app {m k : ℕ} (D : Dense m k) (x : Fin m → ℝ) :
    Fin k → ℝ :=
  fun o => (∑ i, x i * D.kernel i o) + D.bias o

/-- `tf.nn.softmax` along an axis of length `n` (exact-real model). -/
noncomputable def softmax {n : ℕ} (e : Fin n → ℝ) : Fin n → ℝ :=
  fun i => Real.exp (e i) / ∑ j, Real.exp (e j)

/-- `tf.nn.l2_normalize` along the last axis:
`x / sqrt (max (Σ x²) ε)` with `ε = 10⁻¹²`. -/
noncomputable def l2_normalize {m : ℕ} (x : Fin m → ℝ) : Fin m → ℝ :=
  fun j => x j / Real.sqrt (max (∑ i, x i ^ 2) (1 / 10 ^ 12))

/-- The `Attention` layer: configuration fields as stored by
`Attention.__init__` plus the four `Dense` sublayers
(`va = Dense(1)`, `w1 = Dense(units)`, `w2 = Dense(units)`,
`w3 = Dense(units)`; `w3` is applied to the trailing-size-1 coverage
axis, so its realized input dimension is 1). -/
structure Attention (d : ℕ) where
  units : ℕ
  score_type : String
  mask_index : Option ℤ
  va : Dense d 1
  w1 : Dense d d
  w2 : Dense d d
  w3 : Dense 1 d

/-- `Attention.__init__(units, score_type, mask_index)`: stores the
configuration and the `Dense` sublayers; the source constructor performs
no validation and cannot fail. -/
def Attention.init (d : ℕ) (units : ℕ) (score_type : String)
    (mask_index : Option ℤ) (va : Dense d 1) (w1 : Dense d d)
    (w2 : Dense d d) (w3 : Dense 1 d) : Attention d :=
  ⟨units, score_type, mask_index, va, w1, w2, w3⟩

/-- The unnormalized score `e` of `Attention.attention_score`
(lines 173-187), per batch element, with the trailing size-1 axis
squeezed away: the four-way dispatch on `score_type.lower()`.  A name
outside the four supported ones falls through every branch and leaves
the Python local `e` unbound, so line 189 (`dtype=e.dtype`) raises. -/
noncomputable def Attention.scoreE {d n : ℕ} (A : Attention d)
    (enc_output : Fin n → Fin d → ℝ) (curr_dec_hidden : Fin d → ℝ)
    (prev_coverage : Option (Fin n → ℝ)) : Except String (Fin n → ℝ) :=
  if lowerStr A.score_type = "additive-concat" then
    .ok (match prev_coverage with
      | none => fun i =>
          A.va.app (fun u => Real.tanh
            (A.w1.app (enc_output i) u + A.w2.app curr_dec_hidden u)) 0
      | some cov => fun i =>
          A.va.app (fun u => Real.tanh
            (A.w1.app (enc_output i) u + A.w2.app curr_dec_hidden u +
              A.w3.app (fun _ => cov i) u)) 0)
  else if lowerStr A.score_type = "dot-product" then
    .ok fun i => ∑ j, enc_output i j * curr_dec_hidden j
  else if lowerStr A.score_type = "general" then
    .ok fun i => ∑ j, enc_output i j * A.w1.app curr_dec_hidden j
  else if lowerStr A.score_type = "cosine-similarity" then
    .ok fun i => ∑ j, l2_normalize (enc_output i) j * l2_normalize curr_dec_hidden j
  else
    .error "NameError: name 'e' is not defined"

/-- `Attention.attention_score` (lines 164-193), per batch element:
compute `e`, multiply by the padding mask (`masked_e = squeeze(e) * mask`),
then softmax over the position axis.  The inline quotient is
`tf.nn.softmax` applied to the masked scores. -/
noncomputable def Attention.attention_scoreE {d n : ℕ} (A : Attention d)
    (enc_output : Fin n → Fin d → ℝ) (curr_dec_hidden : Fin d → ℝ)
    (encoder_pad_mask : Fin n → ℝ) (prev_coverage : Option (Fin n → ℝ)) :
    Except String (Fin n → ℝ) :=
  match A.scoreE enc_output curr_dec_hidden prev_coverage with
  | .error msg => .error msg
  | .ok e =>
      .ok fun i => Real.exp (e i * encoder_pad_mask i) /
        ∑ j, Real.exp (e j * encoder_pad_mask j)

/-- The score-type names accepted by the dispatch in
`Attention.attention_score`. -/
def Supported (score_type : String) : Prop :=
  lowerStr score_type = "additive-concat" ∨
  lowerStr score_type = "dot-product" ∨
  lowerStr score_type = "general" ∨
  lowerStr score_type = "cosine-similarity"

instance (score_type : String) : Decidable (Supported score_type) := by
  unfold Supported; infer_instance

/-- The attention distribution produced by `Attention.attention_score` on
the four supported score types, per batch element, as a total function:
the branch values of `Attention.scoreE` followed by masking and softmax.
`attention_scoreE_eq_ok` below proves it is exactly the `.ok` payload of
`Attention.attention_scoreE` whenever the score type is supported. -/
noncomputable def Attention.attnW {d n : ℕ} (A : Attention d)
    (enc_output : Fin n → Fin d → ℝ) (curr_dec_hidden : Fin d → ℝ)
    (encoder_pad_mask : Fin n → ℝ) (prev_coverage : Option (Fin n → ℝ)) :
    Fin n → ℝ :=
  let e : Fin n → ℝ :=
    if lowerStr A.score_type = "additive-concat" then
      match prev_coverage with
      | none => fun i =>
          A.va.app (fun u => Real.tanh
            (A.w1.app (enc_output i) u + A.w2.app curr_dec_hidden u)) 0
      | some cov => fun i =>
          A.va.app (fun u => Real.tanh
            (A.w1.app (enc_output i) u + A.w2.app curr_dec_hidden u +
              A.w3.app (fun _ => cov i) u)) 0
    else if lowerStr A.score_type = "dot-product" then
      fun i => ∑ j, enc_output i j * curr_dec_hidden j
    else if lowerStr A.score_type = "general" then
      fun i => ∑ j, enc_output i j * A.w1.app curr_dec_hidden j
    else
      fun i => ∑ j, l2_normalize (enc_output i) j * l2_normalize curr_dec_hidden j
  fun i => Real.exp (e i * encoder_pad_mask i) /
    ∑ j, Real.exp (e j * encoder_pad_mask j)

theorem Attention.attention_scoreE_eq_ok {d n : ℕ} (A : Attention d)
    (enc_output : Fin n → Fin d → ℝ) (curr_dec_hidden : Fin d → ℝ)
    (encoder_pad_mask : Fin n → ℝ) (prev_coverage : Option (Fin n → ℝ))
    (hs : Supported A.score_type) :
    A.attention_scoreE enc_output curr_dec_hidden encoder_pad_mask prev_coverage =
      .ok (A.attnW enc_output curr_dec_hidden encoder_pad_mask prev_coverage) := by
  rcases hs with h | h | h | h <;>
    simp [attention_scoreE, scoreE, attnW, h]

theorem Attention.attention_scoreE_eq_error {d n : ℕ} (A : Attention d)
    (enc_output : Fin n → Fin d → ℝ) (curr_dec_hidden : Fin d → ℝ)
    (encoder_pad_mask : Fin n → ℝ) (prev_coverage : Option (Fin n → ℝ))
    (hs : ¬ Supported A.score_type) :
    A.attention_scoreE enc_output curr_dec_hidden encoder_pad_mask prev_coverage =
      .error "NameError: name 'e' is not defined" := by
  rw [Supported] at hs
  push_neg at hs
  obtain ⟨h1, h2, h3, h4⟩ := hs
  simp [attention_scoreE, scoreE, h1, h2, h3, h4]

/-- Result of `Attention.call`.  The normal shape (`full`) carries the
context vectors, the batched squeezed attention distribution and the
optional coverage.  The `collapsed` shape is what the broken
`use_coverage=False` branch yields when the batch dimension happens to be
2: the attention weights of batch element 0 only, with no batch axis and
no coverage. -/
inductive CallOut (b n d : ℕ) where
  | full (context : Fin b → Fin d → ℝ)
      (attention_weights : Fin b → Fin n → ℝ)
      (coverage : Option (Fin b → Fin n → ℝ))
  | collapsed (context : Fin b → Fin d → ℝ)
      (attention_weights : Fin n → ℝ)

/-- `tf.reduce_sum(attention_score * enc_output, axis=1)` for one batch
element (line 215): the attention-weighted sum of encoder outputs. -/
noncomputable def contextVector {n d : ℕ} (w : Fin n → ℝ)
    (enc_output : Fin n → Fin d → ℝ) : Fin d → ℝ :=
  fun j => ∑ i, w i * enc_output i j

/-- Batched `Attention.attention_score`: TensorFlow applies the same
per-element computation along batch axis 0; the only failure (unknown
score type) does not depend on the batch element. -/
noncomputable def Attention.attention_scoreB {d b n : ℕ} (A : Attention d)
    (enc_output : Fin b → Fin n → Fin d → ℝ)
    (curr_dec_hidden : Fin b → Fin d → ℝ)
    (encoder_pad_mask : Fin b → Fin n → ℝ)
    (prev_coverage : Option (Fin b → Fin n → ℝ)) :
    Except String (Fin b → Fin n → ℝ) :=
  if Supported A.score_type then
    .ok fun β => A.attnW (enc_output β) (curr_dec_hidden β)
      (encoder_pad_mask β) (prev_coverage.map fun c => c β)
  else .error "NameError: name 'e' is not defined"

theorem Attention.attention_scoreB_elem {d b n : ℕ} (A : Attention d)
    (enc_output : Fin b → Fin n → Fin d → ℝ)
    (curr_dec_hidden : Fin b → Fin d → ℝ)
    (encoder_pad_mask : Fin b → Fin n → ℝ)
    (prev_coverage : Option (Fin b → Fin n → ℝ))
    (W : Fin b → Fin n → ℝ)
    (h : A.attention_scoreB enc_output curr_dec_hidden encoder_pad_mask
        prev_coverage = .ok W) (β : Fin b) :
    A.attention_scoreE (enc_output β) (curr_dec_hidden β)
      (encoder_pad_mask β) (prev_coverage.map fun c => c β) = .ok (W β) := by
  by_cases hs : Supported A.score_type
  · rw [A.attention_scoreE_eq_ok _ _ _ _ hs]
    rw [attention_scoreB, if_pos hs] at h
    injection h with h
    rw [← h]
  · rw [attention_scoreB, if_neg hs] at h
    exact absurd h (by simp)

/-- `Attention.call` (lines 195-217).  The `use_coverage` branch scores
with the previous coverage, accumulates coverage, and returns the full
triple.  The `use_coverage=False` branch executes
`attention_score, e = self.attention_score(...)`, which unpacks the
single tensor returned by `attention_score` along its leading (batch)
axis into two Python variables: it raises `ValueError` unless the batch
dimension is exactly 2, and when it is 2 it binds `attention_score` to
the slice for batch element 0 (shape `(n, 1)`), so the returned
attention weights lose their batch axis and every batch element's
context vector is computed from batch element 0's weights. -/
noncomputable def Attention.callE {d b n : ℕ} (A : Attention d)
    (dec_hidden : Fin b → Fin d → ℝ)
    (enc_output : Fin b → Fin n → Fin d → ℝ)
    (encoder_pad_mask : Fin b → Fin n → ℝ)
    (use_coverage : Bool)
    (prev_coverage : Option (Fin b → Fin n → ℝ)) :
    Except String (CallOut b n d) :=
  if use_coverage then
    match A.attention_scoreB enc_output dec_hidden encoder_pad_mask prev_coverage with
    | .error msg => .error msg
    | .ok w =>
        let coverage : Fin b → Fin n → ℝ :=
          match prev_coverage with
          | none => w
          | some pc => fun β i => pc β i + w β i
        .ok (.full (fun β => contextVector (w β) (enc_output β)) w (some coverage))
  else
    match A.attention_scoreB enc_output dec_hidden encoder_pad_mask none with
    | .error msg => .error msg
    | .ok w =>
        if hb : b = 2 then
          let w0 : Fin n → ℝ := w ⟨0, by omega⟩
          .ok (.collapsed (fun β => contextVector w0 (enc_output β)) w0)
        else
          .error "ValueError: cannot unpack attention score tensor into 2 values"

/-- A state tensor with explicit shape, as produced by
`tf.zeros((batch_size, units))`. -/
structure STensor where
  rows : ℕ
  cols : ℕ
  entry : ℕ → ℕ → ℝ

/-- `tf.zeros((r, c))`. -/
def zerosT (r c : ℕ) : STensor := ⟨r, c, fun _ _ => (0 : ℝ)⟩

/-- Return value of `Encoder.initialize_hidden_state`: either a bare
tensor (the non-bidirectional GRU case) or a Python list of tensors. -/
inductive InitHidden where
  | single (t : STensor)
  | states (ts : List STensor)

/-- Number of state tensors in an `InitHidden` value. -/
def InitHidden.count : InitHidden → ℕ
  | .single _ => 1
  | .states ts => ts.length

/-- Configuration stored by `Encoder.__init__` (the embedding and RNN
sublayer objects themselves carry no state any claim depends on and are
omitted). -/
structure Encoder where
  vocab_size : ℕ
  embedding_dim : ℕ
  enc_units : ℕ
  batch_sz : ℕ
  rnn_type : String
  bidirectional : Bool

/-- `Encoder.__init__` (lines 6-40): stores the configuration, builds the
embedding, then dispatches on `rnn_type.lower()` to build the RNN
sublayer, raising `Exception('Only GRU and LSTM are supported now.')`
for any other name — so an unsupported `rnn_type` fails at construction
time. -/
def Encoder.initE (vocab_size embedding_dim enc_units batch_sz : ℕ)
    (rnn_type : String) (bidirectional : Bool)
    (embedding_matrix : Option (List (List ℝ))) : Except String Encoder :=
  let _ := embedding_matrix
  if lowerStr rnn_type = "gru" then
    .ok ⟨vocab_size, embedding_dim, enc_units, batch_sz, rnn_type, bidirectional⟩
  else if lowerStr rnn_type = "lstm" then
    .ok ⟨vocab_size, embedding_dim, enc_units, batch_sz, rnn_type, bidirectional⟩
  else
    .error "Only GRU and LSTM are supported now."

/-- `Encoder.initialize_hidden_state` (lines 71-86): zero state tensors
shaped `(batch_size, enc_units)`; GRU yields one tensor (a pair when
bidirectional), LSTM a pair (four when bidirectional). -/
def Encoder.initialize_hidden_state (E : Encoder) (batch_size : Option ℕ) :
    Except String InitHidden :=
  let bs := batch_size.getD E.batch_sz
  if lowerStr E.rnn_type = "gru" then
    let initial_hidden := zerosT bs E.enc_units
    if E.bidirectional then .ok (.states [initial_hidden, initial_hidden])
    else .ok (.single initial_hidden)
  else if lowerStr E.rnn_type = "lstm" then
    let dim := zerosT bs E.enc_units
    if E.bidirectional then .ok (.states [dim, dim, dim, dim])
    else .ok (.states [dim, dim])
  else
    .error "Only GRU and LSTM are supported now."

/-- Configuration stored by `Decoder.__init__`. -/
structure Decoder where
  vocab_size : ℕ
  embedding_dim : ℕ
  dec_units : ℕ
  batch_sz : ℕ
  rnn_type : String

/-- `Decoder.__init__` (lines 90-118): same `rnn_type.lower()` dispatch
as the encoder, raising at construction for unsupported names. -/
def Decoder.initE (vocab_size embedding_dim dec_units batch_sz : ℕ)
    (rnn_type : String) (embedding_matrix : Option (List (List ℝ))) :
    Except String Decoder :=
  let _ := embedding_matrix
  if lowerStr rnn_type = "gru" then
    .ok ⟨vocab_size, embedding_dim, dec_units, batch_sz, rnn_type⟩
  else if lowerStr rnn_type = "lstm" then
    .ok ⟨vocab_size, embedding_dim, dec_units, batch_sz, rnn_type⟩
  else
    .error "Only GRU and LSTM are supported now."

/-- The `Pointer` layer: three `Dense(1)` sublayers reducing the decoder
state (dimension `dh`), the context vector (dimension `dc`) and the
decoder input (dimension `di`) to scalars. -/
structure Pointer (dh dc di : ℕ) where
  w_s_reduce : Dense dh 1
  w_c_reduce : Dense dc 1
  w_i_reduce : Dense di 1

/-- The logistic sigmoid `tf.nn.sigmoid`. -/
noncomputable def sigmoid (x : ℝ) : ℝ := 1 / (1 + Real.exp (-x))

/-- `Pointer.call` (lines 228-237), per batch element:
`sigmoid(w_s(dec_hidden) + w_c(context_vector) + w_i(dec_inp))`, written
with the sigmoid quotient inline as `tf.nn.sigmoid` computes it. -/
noncomputable def Pointer.call {dh dc di : ℕ} (P : Pointer dh dc di)
    (context_vector : Fin dc → ℝ) (dec_hidden : Fin dh → ℝ)
    (dec_inp : Fin di → ℝ) : ℝ :=
  1 / (1 + Real.exp (-(P.w_s_reduce.app dec_hidden 0 +
    P.w_c_reduce.app context_vector 0 + P.w_i_reduce.app dec_inp 0)))

/-- The accumulated-coverage update of `Attention.call` and the batched
attention distribution of one decode step, as a named function for
stating theorems: `Attention.attention_scoreB`'s `.ok` payload. -/
noncomputable def Attention.stepW {d b n : ℕ} (A : Attention d)
    (enc_output : Fin b → Fin n → Fin d → ℝ)
    (dec_hidden : Fin b → Fin d → ℝ)
    (encoder_pad_mask : Fin b → Fin n → ℝ)
    (prev_coverage : Option (Fin b → Fin n → ℝ)) : Fin b → Fin n → ℝ :=
  fun β => A.attnW (enc_output β) (dec_hidden β) (encoder_pad_mask β)
    (prev_coverage.map fun c => c β)

theorem Attention.attention_scoreB_ok {d b n : ℕ} (A : Attention d)
    (enc_output : Fin b → Fin n → Fin d → ℝ)
    (dec_hidden : Fin b → Fin d → ℝ)
    (encoder_pad_mask : Fin b → Fin n → ℝ)
    (prev_coverage : Option (Fin b → Fin n → ℝ))
    (hs : Supported A.score_type) :
    A.attention_scoreB enc_output dec_hidden encoder_pad_mask prev_coverage =
      .ok (A.stepW enc_output dec_hidden encoder_pad_mask prev_coverage) := by
  rw [Attention.attention_scoreB, if_pos hs]; rfl

/-- A one-hot vector over the position axis. -/
def oneHot {n : ℕ} (k : Fin n) : Fin n → ℝ := fun i => if i = k then 1 else 0

end PGN

open PGN

section ConcreteInstances

/-- Zero-weight `Dense` layer on dimension 1, for concrete evaluations. -/
def denseZ : Dense 1 1 := ⟨fun _ _ => 0, fun _ => 0⟩

/-- A concrete dot-product `Attention` layer with zero weights. -/
def cexA : Attention 1 := ⟨0, "dot-product", none, denseZ, denseZ, denseZ, denseZ⟩

/-- Concrete encoder output: two positions, feature dimension 1, all zero. -/
def cexEnc : Fin 2 → Fin 1 → ℝ := fun _ _ => 0

/-- Concrete decoder hidden state, zero. -/
def cexDec : Fin 1 → ℝ := fun _ => 0

/-- Concrete padding mask: position 0 is real, position 1 is padding. -/
def cexMask : Fin 2 → ℝ := fun i => if i = 0 then 1 else 0

/-- The attention weights the source produces on
`cexEnc`/`cexDec`/`cexMask`: both positions get weight 1/2. -/
noncomputable def cexW : Fin 2 → ℝ := fun _ => 1 / 2

theorem cexA_attention_eval :
    cexA.attention_scoreE cexEnc cexDec cexMask none = .ok cexW := by
  have h0 : cexA.scoreE cexEnc cexDec none = .ok (fun _ => (0 : ℝ)) := by
    rw [Attention.scoreE, if_neg (by decide), if_pos (by decide)]
    congr 1
    funext i
    simp [cexEnc, cexDec]
  rw [Attention.attention_scoreE, h0]
  show Except.ok (fun i => Real.exp ((0 : ℝ) * cexMask i) /
    ∑ j, Real.exp ((0 : ℝ) * cexMask j)) = Except.ok cexW
  congr 1
  funext _i
  simp only [cexW, zero_mul, Real.exp_zero, Fin.sum_univ_two]
  norm_num

end ConcreteInstances

section MoreConcreteInstances

/-- Batched concrete input, batch 1, one position, dimension 1. -/
def encS : Fin 1 → Fin 1 → Fin 1 → ℝ := fun _ _ _ => 0

/-- Batched concrete decoder hidden state, batch 1. -/
def decS : Fin 1 → Fin 1 → ℝ := fun _ _ => 0

/-- Batched concrete padding mask, batch 1, all real. -/
def maskS : Fin 1 → Fin 1 → ℝ := fun _ _ => 1

/-- Batched concrete previous coverage, batch 1. -/
def pcS : Fin 1 → Fin 1 → ℝ := fun _ _ => 0

/-- Batched concrete encoder output, batch 1, two positions, dimension 1. -/
def encB1 : Fin 1 → Fin 2 → Fin 1 → ℝ := fun _ _ _ => 0

/-- Batched concrete decoder hidden state, batch 1. -/
def decB1 : Fin 1 → Fin 1 → ℝ := fun _ _ => 0

/-- Batched concrete padding mask: position 0 real, position 1 padding. -/
def maskB1 : Fin 1 → Fin 2 → ℝ := fun _ i => if i = 0 then 1 else 0

/-- Batched concrete encoder output, batch 2. -/
def encB2 : Fin 2 → Fin 2 → Fin 1 → ℝ := fun _ _ _ => 0

/-- Batched concrete decoder hidden state, batch 2. -/
def decB2 : Fin 2 → Fin 1 → ℝ := fun _ _ => 0

/-- Batched concrete padding mask, batch 2. -/
def maskB2 : Fin 2 → Fin 2 → ℝ := fun _ i => if i = 0 then 1 else 0

/-- Concrete encoder output with distinct rows, for the one-hot check. -/
def e2 : Fin 2 → Fin 1 → ℝ := fun i _ => if i = 0 then 3 else 7

end MoreConcreteInstances

/-- C2: with coverage enabled, `Attention.call` returns as coverage the
previous coverage plus the current attention distribution elementwise
(the current distribution itself when no previous coverage exists);
consequently over a 3-step decode with distributions a1, a2, a3 the
coverage after step 2 is a1+a2 and after step 3 is a1+a2+a3. -/
theorem attention_coverage_accumulates {d b n : ℕ} (A : Attention d)
    (enc : Fin b → Fin n → Fin d → ℝ) (mask : Fin b → Fin n → ℝ)
    (dec0 dec1 dec2 dec3 : Fin b → Fin d → ℝ) (pc : Fin b → Fin n → ℝ)
    (hs : Supported A.score_type) :
    A.callE dec0 enc mask true none =
      .ok (.full (fun β => contextVector (A.stepW enc dec0 mask none β) (enc β))
        (A.stepW enc dec0 mask none) (some (A.stepW enc dec0 mask none))) ∧
    A.callE dec0 enc mask true (some pc) =
      .ok (.full
        (fun β => contextVector (A.stepW enc dec0 mask (some pc) β) (enc β))
        (A.stepW enc dec0 mask (some pc))
        (some (fun β i => pc β i + A.stepW enc dec0 mask (some pc) β i))) ∧
    A.callE dec2 enc mask true (some (A.stepW enc dec1 mask none)) =
      .ok (.full
        (fun β => contextVector
          (A.stepW enc dec2 mask (some (A.stepW enc dec1 mask none)) β) (enc β))
        (A.stepW enc dec2 mask (some (A.stepW enc dec1 mask none)))
        (some (fun β i => A.stepW enc dec1 mask none β i +
          A.stepW enc dec2 mask (some (A.stepW enc dec1 mask none)) β i))) ∧
    A.callE dec3 enc mask true
        (some (fun β i => A.stepW enc dec1 mask none β i +
          A.stepW enc dec2 mask (some (A.stepW enc dec1 mask none)) β i)) =
      .ok (.full
        (fun β => contextVector
          (A.stepW enc dec3 mask
            (some (fun β i => A.stepW enc dec1 mask none β i +
              A.stepW enc dec2 mask (some (A.stepW enc dec1 mask none)) β i)) β)
          (enc β))
        (A.stepW enc dec3 mask
          (some (fun β i => A.stepW enc dec1 mask none β i +
            A.stepW enc dec2 mask (some (A.stepW enc dec1 mask none)) β i)))
        (some (fun β i => A.stepW enc dec1 mask none β i +
          A.stepW enc dec2 mask (some (A.stepW enc dec1 mask none)) β i +
          A.stepW enc dec3 mask
            (some (fun β i => A.stepW enc dec1 mask none β i +
              A.stepW enc dec2 mask
                (some (A.stepW enc dec1 mask none)) β i)) β i))) := by
  have key : ∀ (dec : Fin b → Fin d → ℝ) (pco : Option (Fin b → Fin n → ℝ)),
      A.callE dec enc mask true pco =
        .ok (.full (fun β => contextVector (A.stepW enc dec mask pco β) (enc β))
          (A.stepW enc dec mask pco)
          (some (match pco with
            | none => A.stepW enc dec mask pco
            | some c => fun β i => c β i + A.stepW enc dec mask pco β i))) := by
    intro dec pco
    rw [Attention.callE, if_pos rfl,
      A.attention_scoreB_ok enc dec mask pco hs]
  exact ⟨key dec0 none, key dec0 (some pc),
    key dec2 (some (A.stepW enc dec1 mask none)), key dec3 (some _)⟩

theorem attention_coverage_accumulates_witness :
    cexA.callE decS encS maskS true none =
      .ok (.full
        (fun β => contextVector (cexA.stepW encS decS maskS none β) (encS β))
        (cexA.stepW encS decS maskS none)
        (some (cexA.stepW encS decS maskS none))) ∧
    cexA.callE decS encS maskS true (some pcS) =
      .ok (.full
        (fun β => contextVector (cexA.stepW encS decS maskS (some pcS) β) (encS β))
        (cexA.stepW encS decS maskS (some pcS))
        (some (fun β i => pcS β i + cexA.stepW encS decS maskS (some pcS) β i))) := by
  have h := attention_coverage_accumulates cexA encS maskS decS decS decS decS
    pcS (by decide)
  exact ⟨h.1, h.2.1⟩

/-- C4: the context vector returned by `Attention.call` is the sum over
input positions of attention weight times encoder output vector, and the
weighted sum applied to a synthetic one-hot distribution concentrated at
position `k` returns exactly the encoder output at `k`. -/
theorem attention_context_is_weighted_sum {d b n : ℕ} (A : Attention d)
    (dec : Fin b → Fin d → ℝ) (enc : Fin b → Fin n → Fin d → ℝ)
    (mask : Fin b → Fin n → ℝ) (pc : Option (Fin b → Fin n → ℝ))
    (ctx : Fin b → Fin d → ℝ) (w : Fin b → Fin n → ℝ)
    (cov : Option (Fin b → Fin n → ℝ))
    (h : A.callE dec enc mask true pc = .ok (.full ctx w cov)) :
    (ctx = fun β => contextVector (w β) (enc β)) ∧
    ∀ (k : Fin n) (e : Fin n → Fin d → ℝ), contextVector (oneHot k) e = e k := by
  constructor
  · by_cases hs : Supported A.score_type
    · rw [Attention.callE, if_pos rfl,
        A.attention_scoreB_ok enc dec mask pc hs] at h
      simp only [Except.ok.injEq, CallOut.full.injEq] at h
      obtain ⟨hctx, hw, hcov⟩ := h
      subst hctx
      subst hw
      rfl
    · rw [Attention.callE, if_pos rfl, Attention.attention_scoreB,
        if_neg hs] at h
      exact absurd h (by simp)
  · intro k e
    funext j
    simp [contextVector, oneHot, ite_mul]

theorem attention_context_is_weighted_sum_witness :
    contextVector (oneHot (1 : Fin 2)) e2 = e2 1 :=
  (attention_context_is_weighted_sum cexA decB1 encB1 maskB1 none
    (fun β => contextVector (cexA.stepW encB1 decB1 maskB1 none β) (encB1 β))
    (cexA.stepW encB1 decB1 maskB1 none)
    (some (cexA.stepW encB1 decB1 maskB1 none))
    (by rw [Attention.callE, if_pos rfl,
      cexA.attention_scoreB_ok encB1 decB1 maskB1 none (by decide)])).2 1 e2

/-- A concrete `Attention` layer constructed with an unsupported score
type: `Attention.__init__` stores it without validation. -/
def badA : Attention 1 := Attention.init 1 0 "recurrent" none denseZ denseZ denseZ denseZ

/-- C6 (amended): constructing an `Attention` layer with a `score_type`
outside the four supported names succeeds — `Attention.__init__`
performs no validation — and the unsupported name is detected only at
the first `attention_score` call, which fails with the unbound-local
`NameError` (never silently defaulting to a supported score function). -/
theorem attention_bad_score_type_fails_at_first_use {d n : ℕ} (units : ℕ)
    (score_type : String) (mi : Option ℤ) (va : Dense d 1) (w1 w2 : Dense d d)
    (w3 : Dense 1 d) (enc : Fin n → Fin d → ℝ) (dec : Fin d → ℝ)
    (mask : Fin n → ℝ) (pc : Option (Fin n → ℝ))
    (h : ¬ Supported score_type) :
    (Attention.init d units score_type mi va w1 w2 w3).score_type = score_type ∧
    (Attention.init d units score_type mi va w1 w2 w3).attention_scoreE
        enc dec mask pc = .error "NameError: name 'e' is not defined" :=
  ⟨rfl, Attention.attention_scoreE_eq_error _ enc dec mask pc h⟩

theorem attention_bad_score_type_fails_at_first_use_witness :
    (Attention.init 1 0 "recurrent" none denseZ denseZ denseZ denseZ).score_type =
      "recurrent" ∧
    (Attention.init 1 0 "recurrent" none denseZ denseZ denseZ
        denseZ).attention_scoreE cexEnc cexDec cexMask none =
      .error "NameError: name 'e' is not defined" :=
  attention_bad_score_type_fails_at_first_use 0 "recurrent" none denseZ denseZ
    denseZ denseZ cexEnc cexDec cexMask none (by decide)

/-- C6 (counterexample to the claim as frozen): construction with the
unsupported score type "recurrent" does NOT fail — it returns a layer
with the bogus name stored — and the failure surfaces only at the first
`attention_score` call. -/
theorem attention_bad_score_type_construction_succeeds :
    badA.score_type = "recurrent" ∧ badA.units = 0 ∧
    badA.attention_scoreE cexEnc cexDec cexMask none =
      .error "NameError: name 'e' is not defined" :=
  ⟨rfl, rfl,
    Attention.attention_scoreE_eq_error badA cexEnc cexDec cexMask none (by decide)⟩

/-- C7 (the code bug): `Attention.call` with `use_coverage=False`
executes `attention_score, e = self.attention_score(...)`, unpacking the
single tensor returned by `attention_score` into two variables.  On a
batch of size 1 this raises a `ValueError` instead of returning the
context vector and squeezed attention distribution, and on a batch of
size 2 it "succeeds" but returns the batch-axis-free weights of batch
element 0 (the `collapsed` shape) rather than the batched squeezed
distribution. -/
theorem attention_call_no_coverage_unpack_bug :
    cexA.callE decB1 encB1 maskB1 false none =
      .error "ValueError: cannot unpack attention score tensor into 2 values" ∧
    cexA.callE decB2 encB2 maskB2 false none =
      .ok (.collapsed
        (fun β => contextVector (cexA.stepW encB2 decB2 maskB2 none 0) (encB2 β))
        (cexA.stepW encB2 decB2 maskB2 none 0)) := by
  constructor
  · rw [Attention.callE, if_neg (by simp),
      cexA.attention_scoreB_ok encB1 decB1 maskB1 none (by decide)]
    rfl
  · rw [Attention.callE, if_neg (by simp),
      cexA.attention_scoreB_ok encB2 decB2 maskB2 none (by decide)]
    rfl

theorem sum_exp_pos {n : ℕ} (hn : 0 < n) (f : Fin n → ℝ) :
    0 < ∑ j, Real.exp (f j) :=
  Finset.sum_pos (fun _i _ => Real.exp_pos _) ⟨⟨0, hn⟩, Finset.mem_univ _⟩

/-- C1 (amended): for every score type and every input on a nonempty
position axis, the attention weights returned by
`Attention.attention_score` are all strictly positive and sum to 1
across ALL positions — padded positions included — and all positions
with mask value 0 receive the same strictly positive weight.  (The
claim as frozen is refuted by `attention_padding_weight_counterexample`:
masking zeroes the pre-softmax score, not the probability, so a padded
position's weight is `exp 0` divided by the normalizer, not ≈0, and the
sum over non-padded positions alone falls short of 1.) -/
theorem attention_weights_sum_over_all_positions {d n : ℕ} (A : Attention d)
    (enc_output : Fin n → Fin d → ℝ) (curr_dec_hidden : Fin d → ℝ)
    (encoder_pad_mask : Fin n → ℝ) (prev_coverage : Option (Fin n → ℝ))
    (w : Fin n → ℝ) (hn : 0 < n)
    (hw : A.attention_scoreE enc_output curr_dec_hidden encoder_pad_mask
        prev_coverage = .ok w) :
    (∑ i, w i = 1) ∧ (∀ i, 0 < w i) ∧
    (∀ i j, encoder_pad_mask i = 0 → encoder_pad_mask j = 0 → w i = w j) := by
  cases h : A.scoreE enc_output curr_dec_hidden prev_coverage with
  | error msg =>
      rw [Attention.attention_scoreE, h] at hw
      exact absurd hw (by simp)
  | ok e =>
      rw [Attention.attention_scoreE, h] at hw
      injection hw with hw
      subst hw
      have hS : 0 < ∑ j, Real.exp (e j * encoder_pad_mask j) := sum_exp_pos hn _
      refine ⟨?_, fun i => div_pos (Real.exp_pos _) hS, fun i j hi hj => ?_⟩
      · rw [← Finset.sum_div]
        exact div_self hS.ne'
      · simp only [hi, hj, mul_zero]

theorem attention_weights_sum_over_all_positions_witness :
    cexW 0 + cexW 1 = 1 ∧ 0 < cexW 1 := by
  have h := attention_weights_sum_over_all_positions cexA cexEnc cexDec
    cexMask none cexW (by norm_num) cexA_attention_eval
  refine ⟨?_, h.2.1 1⟩
  have h1 := h.1
  rwa [Fin.sum_univ_two] at h1

/-- C1 (counterexample to the claim as frozen): on a two-position input
whose second position is padding (mask `[1, 0]`), with the dot-product
score type and all-zero tensors, the attention weights returned by
`Attention.attention_score` give the padded position weight 1/2 — not
≈0 — and the weights over the non-padded positions sum to only 1/2, not
1. -/
theorem attention_padding_weight_counterexample :
    cexMask 0 = 1 ∧ cexMask 1 = 0 ∧
    cexA.attention_scoreE cexEnc cexDec cexMask none = .ok cexW ∧
    cexW 1 = 1 / 2 ∧ cexW 0 = 1 / 2 :=
  ⟨by norm_num [cexMask], by norm_num [cexMask], cexA_attention_eval,
    by norm_num [cexW], by norm_num [cexW]⟩

/-- C9: `Encoder.initialize_hidden_state` returns all-zero state tensors
of shape (batch size, unit count); a bidirectional LSTM encoder yields
exactly 4 of them and a non-bidirectional GRU encoder exactly 1. -/
theorem initialize_hidden_state_zero_states (E : Encoder)
    (batch_size : Option ℕ) :
    ((lowerStr E.rnn_type = "lstm" ∧ E.bidirectional = true) →
      E.initialize_hidden_state batch_size =
        .ok (.states [zerosT (batch_size.getD E.batch_sz) E.enc_units,
          zerosT (batch_size.getD E.batch_sz) E.enc_units,
          zerosT (batch_size.getD E.batch_sz) E.enc_units,
          zerosT (batch_size.getD E.batch_sz) E.enc_units]) ∧
      (InitHidden.states [zerosT (batch_size.getD E.batch_sz) E.enc_units,
        zerosT (batch_size.getD E.batch_sz) E.enc_units,
        zerosT (batch_size.getD E.batch_sz) E.enc_units,
        zerosT (batch_size.getD E.batch_sz) E.enc_units]).count = 4) ∧
    ((lowerStr E.rnn_type = "gru" ∧ E.bidirectional = false) →
      E.initialize_hidden_state batch_size =
        .ok (.single (zerosT (batch_size.getD E.batch_sz) E.enc_units)) ∧
      (InitHidden.single
        (zerosT (batch_size.getD E.batch_sz) E.enc_units)).count = 1) ∧
    (zerosT (batch_size.getD E.batch_sz) E.enc_units).rows =
      batch_size.getD E.batch_sz ∧
    (zerosT (batch_size.getD E.batch_sz) E.enc_units).cols = E.enc_units ∧
    ∀ r c, (zerosT (batch_size.getD E.batch_sz) E.enc_units).entry r c = 0 := by
  have hlg : ¬ ("lstm" : String) = "gru" := by decide
  refine ⟨fun h => ?_, fun h => ?_, rfl, rfl, fun r c => rfl⟩
  · obtain ⟨h1, h2⟩ := h
    rw [Encoder.initialize_hidden_state]
    simp [h1, h2, hlg, InitHidden.count]
  · obtain ⟨h1, h2⟩ := h
    rw [Encoder.initialize_hidden_state]
    simp [h1, h2, InitHidden.count]

theorem initialize_hidden_state_zero_states_witness :
    (Encoder.mk 20 8 10 5 "lstm" true).initialize_hidden_state none =
      .ok (.states [zerosT 5 10, zerosT 5 10, zerosT 5 10, zerosT 5 10]) ∧
    (InitHidden.states
      [zerosT 5 10, zerosT 5 10, zerosT 5 10, zerosT 5 10]).count = 4 ∧
    (Encoder.mk 20 8 10 5 "gru" false).initialize_hidden_state none =
      .ok (.single (zerosT 5 10)) ∧
    (InitHidden.single (zerosT 5 10)).count = 1 := by
  have h4 := (initialize_hidden_state_zero_states
    (Encoder.mk 20 8 10 5 "lstm" true) none).1 ⟨by decide, rfl⟩
  have h1 := ((initialize_hidden_state_zero_states
    (Encoder.mk 20 8 10 5 "gru" false) none).2.1 ⟨by decide, rfl⟩)
  exact ⟨h4.1, h4.2, h1.1, h1.2⟩

/-- C3: for every score type and every input, the attention distribution
returned by `Attention.attention_score` is the softmax, over the
input-position axis, of the raw score multiplied elementwise by the
padding mask — the mask is applied to the unnormalized scores first and
the softmax is applied after masking. -/
theorem attention_masks_scores_before_softmax {d n : ℕ} (A : Attention d)
    (enc_output : Fin n → Fin d → ℝ) (curr_dec_hidden : Fin d → ℝ)
    (encoder_pad_mask : Fin n → ℝ) (prev_coverage : Option (Fin n → ℝ)) :
    A.attention_scoreE enc_output curr_dec_hidden encoder_pad_mask prev_coverage =
      (A.scoreE enc_output curr_dec_hidden prev_coverage).map
        (fun e => softmax fun i => e i * encoder_pad_mask i) := by
  cases h : A.scoreE enc_output curr_dec_hidden prev_coverage with
  | error msg => simp only [Attention.attention_scoreE, h, Except.map]
  | ok e =>
      simp only [Attention.attention_scoreE, h, Except.map]
      rfl

/-- C5: `Pointer.call` returns the logistic sigmoid of the sum of the
three learned `Dense(1)` projections of decoder state, context vector
and decoder input, and the result is always strictly between 0 and 1. -/
theorem pointer_call_sigmoid_range {dh dc di : ℕ} (P : Pointer dh dc di)
    (context_vector : Fin dc → ℝ) (dec_hidden : Fin dh → ℝ)
    (dec_inp : Fin di → ℝ) :
    P.call context_vector dec_hidden dec_inp =
      sigmoid (P.w_s_reduce.app dec_hidden 0 +
        P.w_c_reduce.app context_vector 0 + P.w_i_reduce.app dec_inp 0) ∧
    0 < P.call context_vector dec_hidden dec_inp ∧
    P.call context_vector dec_hidden dec_inp < 1 := by
  refine ⟨rfl, ?_, ?_⟩
  · rw [Pointer.call]
    positivity
  · rw [Pointer.call, div_lt_one (by positivity)]
    linarith [Real.exp_pos (-(P.w_s_reduce.app dec_hidden 0 +
      P.w_c_reduce.app context_vector 0 + P.w_i_reduce.app dec_inp 0))]

/-- C8: constructing an `Encoder` or a `Decoder` with an `rnn_type` that
is neither GRU nor LSTM raises the configuration exception immediately
at construction, never silently defaulting to a supported cell kind. -/
theorem encoder_decoder_bad_rnn_type_error_at_init
    (vocab_size embedding_dim units batch_sz : ℕ) (rnn_type : String)
    (bidirectional : Bool) (embedding_matrix : Option (List (List ℝ)))
    (h1 : lowerStr rnn_type ≠ "gru") (h2 : lowerStr rnn_type ≠ "lstm") :
    Encoder.initE vocab_size embedding_dim units batch_sz rnn_type
        bidirectional embedding_matrix =
      .error "Only GRU and LSTM are supported now." ∧
    Decoder.initE vocab_size embedding_dim units batch_sz rnn_type
        embedding_matrix =
      .error "Only GRU and LSTM are supported now." := by
  constructor <;> simp [Encoder.initE, Decoder.initE, h1, h2]

theorem encoder_decoder_bad_rnn_type_error_at_init_witness :
    Encoder.initE 20 8 10 5 "rnn" true none =
      .error "Only GRU and LSTM are supported now." ∧
    Decoder.initE 20 8 10 5 "rnn" none =
      .error "Only GRU and LSTM are supported now." :=
  encoder_decoder_bad_rnn_type_error_at_init 20 8 10 5 "rnn" true none
    (by decide) (by decide)

/-- C10: `mask_index` is dead configuration — two `Attention` layers
identical except for their `mask_index` values produce identical results
from `Attention.call` (context vectors, attention distributions and
coverage outputs alike), for every input and for both settings of
`use_coverage`. -/
theorem mask_index_has_no_effect {d b n : ℕ} (units : ℕ)
    (score_type : String) (mi mi' : Option ℤ) (va : Dense d 1)
    (w1 : Dense d d) (w2 : Dense d d) (w3 : Dense 1 d)
    (dec_hidden : Fin b → Fin d → ℝ)
    (enc_output : Fin b → Fin n → Fin d → ℝ)
    (encoder_pad_mask : Fin b → Fin n → ℝ) (use_coverage : Bool)
    (prev_coverage : Option (Fin b → Fin n → ℝ)) :
    (Attention.mk units score_type mi va w1 w2 w3).callE dec_hidden
        enc_output encoder_pad_mask use_coverage prev_coverage =
      (Attention.mk units score_type mi' va w1 w2 w3).callE dec_hidden
        enc_output encoder_pad_mask use_coverage prev_coverage := rfl
